import Mathlib

/-!
Verification of the layered vector-drawing engine of this repository.

The embedding mirrors the TypeScript sources:
* `interface.ts` — the option records (`RectOpts`, `ShapeOpts`, `LineOpts`,
  `PathOpts`, `TextOpts`) become structures whose optional fields are `Option`s.
* `executor.ts` (`DrawingContextImpl`) — the builder state is a structure
  holding the element list, the current layer counter and the canvas size;
  every drawing method becomes a state-passing function that appends one
  element built from the same template string as the source.
* JavaScript numbers are idealised as rationals (`ℚ`); the trigonometric
  calls `Math.cos` / `Math.sin` used by `arc` are passed in as abstract
  functions `cosd sind : ℚ → ℚ` (the float results are rationals), and the
  idealised real-valued geometry of `arc` is stated separately over `ℝ`.
* `code-exec.ts` — the agent-side tool wrapper and the lineage recording
  loop are embedded over a trace model of a submitted script: the sequence
  of builder calls it performs plus an optional raised error message.
-/

namespace ImageEditor

/-- Newline separator used by `toSVG` when joining the rendered elements. -/
def nl : String := "\n"

/-- Option record for `rect` (interface.ts `RectOpts`): optional fill, stroke,
stroke width, opacity and border radius. -/
structure RectOpts where
  fill : Option String
  stroke : Option String
  strokeWidth : Option ℚ
  opacity : Option ℚ
  borderRadius : Option ℚ
deriving DecidableEq

/-- Option record for `circle`, `triangle` and `arc` (interface.ts
`ShapeOpts`): optional fill, stroke, stroke width and opacity. -/
structure ShapeOpts where
  fill : Option String
  stroke : Option String
  strokeWidth : Option ℚ
  opacity : Option ℚ
deriving DecidableEq

/-- Option record for `line` (interface.ts `LineOpts`): stroke and width are
required fields, opacity is optional. -/
structure LineOpts where
  stroke : String
  width : ℚ
  opacity : Option ℚ
deriving DecidableEq

/-- Option record for `path` (interface.ts `PathOpts`). -/
structure PathOpts where
  fill : Option String
  stroke : Option String
  strokeWidth : Option ℚ
  opacity : Option ℚ
  closed : Option Bool
deriving DecidableEq

/-- Option record for `text` (interface.ts `TextOpts`). -/
structure TextOpts where
  fill : Option String
  font : Option String
  size : Option ℚ
  weight : Option ℚ
  opacity : Option ℚ
deriving DecidableEq

/-- One stored scene element (executor.ts `Element`): the layer it was created
on and its serialized SVG markup. -/
structure Element where
  layer : Nat
  svg : String
deriving DecidableEq

/-- The builder state (executor.ts `DrawingContextImpl`): the appended
elements, the mutable current-layer counter and the canvas size. -/
structure DrawingContextImpl where
  elements : List Element
  currentLayer : Nat
  canvasSize : ℚ
deriving DecidableEq

/-- Source `createDrawingContext(size)` — a fresh builder: no elements, layer 0. -/
def createDrawingContext (size : ℚ) : DrawingContextImpl :=
  ⟨[], 0, size⟩

/-- Numeric interpolation into a template string. -/
def num (q : ℚ) : String := toString q

namespace DrawingContextImpl

/-- Resolution `opts?.fill ?? 'transparent'` in `rect`. -/
def rectFill (opts : Option RectOpts) : String :=
  Option.getD (opts.bind RectOpts.fill) "transparent"

/-- Resolution `opts?.stroke ?? 'none'` in `rect`. -/
def rectStroke (opts : Option RectOpts) : String :=
  Option.getD (opts.bind RectOpts.stroke) "none"

/-- Resolution `opts?.strokeWidth ?? 0` in `rect`. -/
def rectStrokeWidth (opts : Option RectOpts) : ℚ :=
  Option.getD (opts.bind RectOpts.strokeWidth) 0

/-- Resolution `opts?.opacity ?? 1` in `rect`. -/
def rectOpacity (opts : Option RectOpts) : ℚ :=
  Option.getD (opts.bind RectOpts.opacity) 1

/-- Resolution `opts?.borderRadius ?? 0` in `rect`. -/
def rectBorderRadius (opts : Option RectOpts) : ℚ :=
  Option.getD (opts.bind RectOpts.borderRadius) 0

/-- The `<rect …/>` template string of `rect`. -/
def rectSvg (x y width height : ℚ) (opts : Option RectOpts) : String :=
  "<rect x=\"" ++ num x ++ "\" y=\"" ++ num y ++ "\" width=\"" ++ num width
    ++ "\" height=\"" ++ num height ++ "\" fill=\"" ++ rectFill opts
    ++ "\" stroke=\"" ++ rectStroke opts ++ "\" stroke-width=\""
    ++ num (rectStrokeWidth opts) ++ "\" rx=\"" ++ num (rectBorderRadius opts)
    ++ "\" opacity=\"" ++ num (rectOpacity opts) ++ "\" />"

/-- Method `rect(x, y, width, height, opts?)`: appends one rect element tagged with
the current layer. -/
def rect (d : DrawingContextImpl) (x y width height : ℚ)
    (opts : Option RectOpts) : DrawingContextImpl :=
  { d with elements := d.elements ++ [⟨d.currentLayer, rectSvg x y width height opts⟩] }

/-- Resolution `opts?.fill ?? 'transparent'` in `circle` / `triangle` / `arc`. -/
def shapeFill (opts : Option ShapeOpts) : String :=
  Option.getD (opts.bind ShapeOpts.fill) "transparent"

/-- Resolution `opts?.stroke ?? 'none'` in `circle` / `triangle` / `arc`. -/
def shapeStroke (opts : Option ShapeOpts) : String :=
  Option.getD (opts.bind ShapeOpts.stroke) "none"

/-- Resolution `opts?.strokeWidth ?? 0` in `circle` / `triangle` / `arc`. -/
def shapeStrokeWidth (opts : Option ShapeOpts) : ℚ :=
  Option.getD (opts.bind ShapeOpts.strokeWidth) 0

/-- Resolution `opts?.opacity ?? 1` in `circle` / `triangle` / `arc`. -/
def shapeOpacity (opts : Option ShapeOpts) : ℚ :=
  Option.getD (opts.bind ShapeOpts.opacity) 1

/-- The `<circle …/>` template string of `circle`. -/
def circleSvg (x y radius : ℚ) (opts : Option ShapeOpts) : String :=
  "<circle cx=\"" ++ num x ++ "\" cy=\"" ++ num y ++ "\" r=\"" ++ num radius
    ++ "\" fill=\"" ++ shapeFill opts ++ "\" stroke=\"" ++ shapeStroke opts
    ++ "\" stroke-width=\"" ++ num (shapeStrokeWidth opts) ++ "\" opacity=\""
    ++ num (shapeOpacity opts) ++ "\" />"

/-- Method `circle(x, y, radius, opts?)`: appends one circle element tagged with the
current layer; the source performs no radius check. -/
def circle (d : DrawingContextImpl) (x y radius : ℚ)
    (opts : Option ShapeOpts) : DrawingContextImpl :=
  { d with elements := d.elements ++ [⟨d.currentLayer, circleSvg x y radius opts⟩] }

/-- The `<polygon …/>` template string of `triangle`. -/
def triangleSvg (x1 y1 x2 y2 x3 y3 : ℚ) (opts : Option ShapeOpts) : String :=
  "<polygon points=\"" ++ num x1 ++ "," ++ num y1 ++ " " ++ num x2 ++ ","
    ++ num y2 ++ " " ++ num x3 ++ "," ++ num y3 ++ "\" fill=\""
    ++ shapeFill opts ++ "\" stroke=\"" ++ shapeStroke opts
    ++ "\" stroke-width=\"" ++ num (shapeStrokeWidth opts) ++ "\" opacity=\""
    ++ num (shapeOpacity opts) ++ "\" />"

/-- Method `triangle(x1,y1,x2,y2,x3,y3, opts?)`: appends one polygon element. -/
def triangle (d : DrawingContextImpl) (x1 y1 x2 y2 x3 y3 : ℚ)
    (opts : Option ShapeOpts) : DrawingContextImpl :=
  { d with elements := d.elements ++ [⟨d.currentLayer, triangleSvg x1 y1 x2 y2 x3 y3 opts⟩] }

/-- Resolution `opts?.stroke ?? '#000'` in `line`. -/
def lineStroke (opts : Option LineOpts) : String :=
  Option.getD (opts.map LineOpts.stroke) "#000"

/-- Resolution `opts?.width ?? 1` in `line`. -/
def lineWidth (opts : Option LineOpts) : ℚ :=
  Option.getD (opts.map LineOpts.width) 1

/-- Resolution `opts?.opacity ?? 1` in `line`. -/
def lineOpacity (opts : Option LineOpts) : ℚ :=
  Option.getD (opts.bind LineOpts.opacity) 1

/-- The `<line …/>` template string of `line`. -/
def lineSvg (x1 y1 x2 y2 : ℚ) (opts : Option LineOpts) : String :=
  "<line x1=\"" ++ num x1 ++ "\" y1=\"" ++ num y1 ++ "\" x2=\"" ++ num x2
    ++ "\" y2=\"" ++ num y2 ++ "\" stroke=\"" ++ lineStroke opts
    ++ "\" stroke-width=\"" ++ num (lineWidth opts) ++ "\" opacity=\""
    ++ num (lineOpacity opts) ++ "\" />"

/-- Method `line(x1,y1,x2,y2, opts?)`: appends one line element. -/
def line (d : DrawingContextImpl) (x1 y1 x2 y2 : ℚ)
    (opts : Option LineOpts) : DrawingContextImpl :=
  { d with elements := d.elements ++ [⟨d.currentLayer, lineSvg x1 y1 x2 y2 opts⟩] }

/-- Resolution `opts?.fill ?? 'transparent'` in `path`. -/
def pathFill (opts : Option PathOpts) : String :=
  Option.getD (opts.bind PathOpts.fill) "transparent"

/-- Resolution `opts?.stroke ?? 'none'` in `path`. -/
def pathStroke (opts : Option PathOpts) : String :=
  Option.getD (opts.bind PathOpts.stroke) "none"

/-- Resolution `opts?.strokeWidth ?? 0` in `path`. -/
def pathStrokeWidth (opts : Option PathOpts) : ℚ :=
  Option.getD (opts.bind PathOpts.strokeWidth) 0

/-- Resolution `opts?.opacity ?? 1` in `path`. -/
def pathOpacity (opts : Option PathOpts) : ℚ :=
  Option.getD (opts.bind PathOpts.opacity) 1

/-- Resolution `opts?.closed ?? false` in `path`. -/
def pathClosed (opts : Option PathOpts) : Bool :=
  Option.getD (opts.bind PathOpts.closed) false

/-- The `d` attribute built by `path`: move to the first point, line to each
remaining point in order, optionally close. -/
def pathD (first : ℚ × ℚ) (rest : List (ℚ × ℚ)) (closed : Bool) : String :=
  let d0 := "M " ++ num first.1 ++ "," ++ num first.2
  let d := rest.foldl (fun acc p => acc ++ " L " ++ num p.1 ++ "," ++ num p.2) d0
  if closed then d ++ " Z" else d

/-- The `<path …/>` template string of `path`. -/
def pathSvg (first : ℚ × ℚ) (rest : List (ℚ × ℚ)) (opts : Option PathOpts) : String :=
  "<path d=\"" ++ pathD first rest (pathClosed opts) ++ "\" fill=\""
    ++ pathFill opts ++ "\" stroke=\"" ++ pathStroke opts
    ++ "\" stroke-width=\"" ++ num (pathStrokeWidth opts) ++ "\" opacity=\""
    ++ num (pathOpacity opts) ++ "\" />"

/-- Method `path(points, opts?)`: the empty point list is a no-op; otherwise appends
one path element through the points in order. -/
def path (d : DrawingContextImpl) (points : List (ℚ × ℚ))
    (opts : Option PathOpts) : DrawingContextImpl :=
  match points with
  | [] => d
  | first :: rest =>
    { d with elements := d.elements ++ [⟨d.currentLayer, pathSvg first rest opts⟩] }

/-- Flag `Math.abs(endAngle - startAngle) > 180 ? 1 : 0` in `arc`. -/
def largeArcFlag (startAngle endAngle : ℚ) : Nat :=
  if |endAngle - startAngle| > 180 then 1 else 0

/-- Flag `endAngle > startAngle ? 1 : 0` in `arc`. -/
def sweepFlag (startAngle endAngle : ℚ) : Nat :=
  if endAngle > startAngle then 1 else 0

/-- The `d` attribute built by `arc`: move to the center, line to the start
point, circular arc to the end point, close back to the center.  `cosd` and
`sind` stand for the host's `Math.cos` / `Math.sin` composed with the
degree-to-radian conversion. -/
def arcD (cosd sind : ℚ → ℚ) (x y radius startAngle endAngle : ℚ) : String :=
  let x1 := x + radius * cosd startAngle
  let y1 := y + radius * sind startAngle
  let x2 := x + radius * cosd endAngle
  let y2 := y + radius * sind endAngle
  "M " ++ num x ++ "," ++ num y ++ " L " ++ num x1 ++ "," ++ num y1 ++ " A "
    ++ num radius ++ "," ++ num radius ++ " 0 "
    ++ toString (largeArcFlag startAngle endAngle) ++ ","
    ++ toString (sweepFlag startAngle endAngle) ++ " " ++ num x2 ++ ","
    ++ num y2 ++ " Z"

/-- The `<path …/>` template string of `arc`. -/
def arcSvg (cosd sind : ℚ → ℚ) (x y radius startAngle endAngle : ℚ)
    (opts : Option ShapeOpts) : String :=
  "<path d=\"" ++ arcD cosd sind x y radius startAngle endAngle ++ "\" fill=\""
    ++ shapeFill opts ++ "\" stroke=\"" ++ shapeStroke opts
    ++ "\" stroke-width=\"" ++ num (shapeStrokeWidth opts) ++ "\" opacity=\""
    ++ num (shapeOpacity opts) ++ "\" />"

/-- Method `arc(x, y, radius, startAngle, endAngle, opts?)`: appends one pie-wedge
path element. -/
def arc (cosd sind : ℚ → ℚ) (d : DrawingContextImpl)
    (x y radius startAngle endAngle : ℚ) (opts : Option ShapeOpts) :
    DrawingContextImpl :=
  { d with elements :=
      d.elements ++ [⟨d.currentLayer, arcSvg cosd sind x y radius startAngle endAngle opts⟩] }

end DrawingContextImpl

/-- One global single-character replacement, the denotation of
`s.replace(/c/g, r)` on a character sequence. -/
def replaceAll (c : Char) (r : List Char) : List Char → List Char
  | [] => []
  | a :: s => (if a = c then r else [a]) ++ replaceAll c r s

/-- The escaping in `text`:
`content.replace(/&/g,'&amp;').replace(/</g,'&lt;').replace(/>/g,'&gt;')`. -/
def escapeContent (s : String) : String :=
  ⟨replaceAll '>' ("&gt;".data)
    (replaceAll '<' ("&lt;".data)
      (replaceAll '&' ("&amp;".data) s.data))⟩

/-- Specification-level escaping of one character: the three
markup-significant characters map to their entities, all others pass
through unchanged. -/
def escapeChar (a : Char) : List Char :=
  if a = '&' then ("&amp;".data)
  else if a = '<' then ("&lt;".data)
  else if a = '>' then ("&gt;".data)
  else [a]

/-- Specification-level single-pass escaping of a character sequence. -/
def escapeList : List Char → List Char
  | [] => []
  | a :: s => escapeChar a ++ escapeList s

namespace DrawingContextImpl

/-- Resolution `opts?.fill ?? '#000'` in `text`. -/
def textFill (opts : Option TextOpts) : String :=
  Option.getD (opts.bind TextOpts.fill) "#000"

/-- Resolution `opts?.font ?? 'Arial'` in `text`. -/
def textFont (opts : Option TextOpts) : String :=
  Option.getD (opts.bind TextOpts.font) "Arial"

/-- Resolution `opts?.size ?? 16` in `text`. -/
def textSize (opts : Option TextOpts) : ℚ :=
  Option.getD (opts.bind TextOpts.size) 16

/-- Resolution `opts?.weight ?? 400` in `text`. -/
def textWeight (opts : Option TextOpts) : ℚ :=
  Option.getD (opts.bind TextOpts.weight) 400

/-- Resolution `opts?.opacity ?? 1` in `text`. -/
def textOpacity (opts : Option TextOpts) : ℚ :=
  Option.getD (opts.bind TextOpts.opacity) 1

/-- The opening part of the `<text …>` template string, up to and including
the `>` that precedes the escaped content. -/
def textSvgOpen (x y : ℚ) (opts : Option TextOpts) : String :=
  "<text x=\"" ++ num x ++ "\" y=\"" ++ num y ++ "\" font-family=\""
    ++ textFont opts ++ "\" font-size=\"" ++ num (textSize opts)
    ++ "\" font-weight=\"" ++ num (textWeight opts) ++ "\" fill=\""
    ++ textFill opts ++ "\" opacity=\"" ++ num (textOpacity opts)
    ++ "\" text-anchor=\"middle\" dominant-baseline=\"central\">"

/-- The full `<text …>…</text>` template string of `text`. -/
def textSvg (content : String) (x y : ℚ) (opts : Option TextOpts) : String :=
  textSvgOpen x y opts ++ escapeContent content ++ "</text>"

/-- Method `text(content, x, y, opts?)`: appends one text element with escaped
content. -/
def text (d : DrawingContextImpl) (content : String) (x y : ℚ)
    (opts : Option TextOpts) : DrawingContextImpl :=
  { d with elements := d.elements ++ [⟨d.currentLayer, textSvg content x y opts⟩] }

/-- Method `layer()`: increments the current-layer counter, nothing else. -/
def layer (d : DrawingContextImpl) : DrawingContextImpl :=
  { d with currentLayer := d.currentLayer + 1 }

/-- The sort in `toSVG`: `[...this.elements].sort((a, b) => a.layer - b.layer)`.
JavaScript's `Array.prototype.sort` is stable, so the denotation is a stable
merge sort by layer. -/
def sortElements (l : List Element) : List Element :=
  l.mergeSort (fun a b => decide (a.layer ≤ b.layer))

/-- Method `toSVG()`: the svg document listing the elements sorted by layer. -/
def toSVG (d : DrawingContextImpl) : String :=
  "<svg width=\"" ++ num d.canvasSize ++ "\" height=\"" ++ num d.canvasSize
    ++ "\" xmlns=\"http://www.w3.org/2000/svg\">" ++ nl
    ++ String.intercalate nl ((sortElements d.elements).map Element.svg)
    ++ nl ++ "</svg>"

end DrawingContextImpl

/-- One builder call a submitted script can perform on the injected `ctx`. -/
inductive Op where
  | rect (x y width height : ℚ) (opts : Option RectOpts)
  | circle (x y radius : ℚ) (opts : Option ShapeOpts)
  | triangle (x1 y1 x2 y2 x3 y3 : ℚ) (opts : Option ShapeOpts)
  | line (x1 y1 x2 y2 : ℚ) (opts : Option LineOpts)
  | path (points : List (ℚ × ℚ)) (opts : Option PathOpts)
  | arc (x y radius startAngle endAngle : ℚ) (opts : Option ShapeOpts)
  | text (content : String) (x y : ℚ) (opts : Option TextOpts)
  | layer
deriving DecidableEq

/-- Interpretation of one builder call on the builder state. -/
def runOp (cosd sind : ℚ → ℚ) (d : DrawingContextImpl) : Op → DrawingContextImpl
  | Op.rect x y width height opts => d.rect x y width height opts
  | Op.circle x y radius opts => d.circle x y radius opts
  | Op.triangle x1 y1 x2 y2 x3 y3 opts => d.triangle x1 y1 x2 y2 x3 y3 opts
  | Op.line x1 y1 x2 y2 opts => d.line x1 y1 x2 y2 opts
  | Op.path points opts => d.path points opts
  | Op.arc x y radius startAngle endAngle opts =>
      DrawingContextImpl.arc cosd sind d x y radius startAngle endAngle opts
  | Op.text content x y opts => d.text content x y opts
  | Op.layer => d.layer

/-- Interpretation of a whole call sequence. -/
def runOps (cosd sind : ℚ → ℚ) (d : DrawingContextImpl) (ops : List Op) :
    DrawingContextImpl :=
  ops.foldl (runOp cosd sind) d

/-- Trace model of a submitted script: the builder calls it performs on the
injected `ctx`, and `some message` when it ends by raising an unhandled
error (after those calls) rather than completing normally. -/
structure Code where
  ops : List Op
  err : Option String

/-- Method `executeCode(code, canvasSize)` (executor.ts): construct a fresh builder
with `createDrawingContext(canvasSize)`, run the script against it, and
either propagate the script's unhandled error or render the scene.  The
rendered PNG is deterministic in the SVG document, so the image is modelled
by the SVG string. -/
def executeCode (cosd sind : ℚ → ℚ) (code : Code) (canvasSize : ℚ) :
    Except String String :=
  let ctx := runOps cosd sind (createDrawingContext canvasSize) code.ops
  match code.err with
  | some m => Except.error m
  | none => Except.ok ctx.toSVG

/-- Result type of the agent's `executeCode` tool (code-exec.ts): either
`success` with the image data, or `failure` with the error message only. -/
inductive ToolOutput where
  | success (imageData : String)
  | failure (error : String)
deriving DecidableEq

/-- The tool's `execute` callback (code-exec.ts, `imageEditorAgent`): run the
code; on success return the image data, on a caught error return a failure
value carrying `err.message`. -/
def executeCodeTool (cosd sind : ℚ → ℚ) (code : Code) (canvasSize : ℚ) :
    ToolOutput :=
  match executeCode cosd sind code canvasSize with
  | Except.ok buffer => ToolOutput.success buffer
  | Except.error m => ToolOutput.failure m

/-- Two sequential harness calls, written out as the source executes them:
each call constructs its own builder via `createDrawingContext` (executor.ts
line 196); nothing of the first call's final builder state or outcome flows
into the second call. -/
def executeSequential (cosd sind : ℚ → ℚ) (codeA codeB : Code)
    (canvasSize : ℚ) : Except String String × Except String String :=
  let ctxA := runOps cosd sind (createDrawingContext canvasSize) codeA.ops
  let resA : Except String String :=
    match codeA.err with
    | some m => Except.error m
    | none => Except.ok ctxA.toSVG
  let ctxB := runOps cosd sind (createDrawingContext canvasSize) codeB.ops
  let resB : Except String String :=
    match codeB.err with
    | some m => Except.error m
    | none => Except.ok ctxB.toSVG
  (resA, resB)

/-- Idealised real-valued point at angle `θ` (degrees) on the circle of
radius `r` centered at `(x, y)` — executor.ts lines 128–135 with `Math.cos`
and `Math.sin` read as the exact real functions: 0° points right (+x) and
angles increase clockwise because y grows downward. -/
noncomputable def pointOnCircle (x y r θ : ℚ) : ℝ × ℝ :=
  ((x : ℝ) + (r : ℝ) * Real.cos ((θ : ℝ) * Real.pi / 180),
   (y : ℝ) + (r : ℝ) * Real.sin ((θ : ℝ) * Real.pi / 180))

/-- Structured reading of the path string `arc` emits:
`M x,y L x1,y1 A r,r 0 laf,sf x2,y2 Z`. -/
structure ArcPathData where
  moveTo : ℝ × ℝ
  lineTo : ℝ × ℝ
  rx : ℚ
  largeArc : Nat
  sweep : Nat
  arcEnd : ℝ × ℝ
  closed : Bool

/-- The pie-wedge path of `arc(x, y, radius, startAngle, endAngle)` with the
trigonometry idealised over `ℝ` (executor.ts lines 127–141). -/
noncomputable def arcPath (x y radius startAngle endAngle : ℚ) : ArcPathData :=
  { moveTo := ((x : ℝ), (y : ℝ))
    lineTo := pointOnCircle x y radius startAngle
    rx := radius
    largeArc := DrawingContextImpl.largeArcFlag startAngle endAngle
    sweep := DrawingContextImpl.sweepFlag startAngle endAngle
    arcEnd := pointOnCircle x y radius endAngle
    closed := true }

/-- Lineage-node kind (schema: `debug` vs `final`). -/
inductive GenKind where
  | debug
  | final
deriving DecidableEq

/-- One recorded generation row (code-exec.ts `db.insert(generation)`),
with nanoid identifiers modelled as fresh naturals. -/
structure GenNode where
  id : Nat
  threadId : String
  parentId : Option Nat
  kind : GenKind
  prompt : String
  code : String
  imageData : String
deriving DecidableEq

/-- The payload of one successful `executeCode` tool call. -/
structure StepResult where
  code : String
  imageData : String

/-- The `onStepFinish` recording loop (code-exec.ts lines 136–158): for each
successful tool call, insert a `debug` node whose parent is the previous
node of the run (initially the supplied starting parent), with a fresh id;
ids are drawn consecutively from `nextId`. -/
def recordSteps (threadId prompt : String) :
    Nat → Option Nat → List StepResult → List GenNode × Option Nat
  | _, lastGen, [] => ([], lastGen)
  | nextId, lastGen, s :: rest =>
    let node : GenNode :=
      ⟨nextId, threadId, lastGen, GenKind.debug, prompt, s.code, s.imageData⟩
    let tail := recordSteps threadId prompt (nextId + 1) (some nextId) rest
    (node :: tail.1, tail.2)

/-- Retag step `db.update(generation).set({type: 'final'}).where(eq(generation.id, g))`. -/
def retagFinal (g : Nat) (nodes : List GenNode) : List GenNode :=
  nodes.map fun n => if n.id = g then { n with kind := GenKind.final } else n

/-- A full `simpleImageEditorAgent` run over its successful tool calls
(code-exec.ts lines 136–169): record all steps, then — when at least one
node was recorded (`lastGenerationId && lastGenerationId !== parentId`) —
retag the most recent node as `final`. -/
def agentRun (threadId prompt : String) (parentId : Option Nat)
    (freshBase : Nat) (steps : List StepResult) : List GenNode :=
  let recd := recordSteps threadId prompt freshBase parentId steps
  match recd.2 with
  | none => recd.1
  | some g => if some g = parentId then recd.1 else retagFinal g recd.1

/-! ## Theorems -/

/-- Claim C1 (counterexample): the claim "for radius ≤ 0, `circle` appends no
primitive and rendering is unchanged" is false at the concrete input
`circle(0, 0, 0)` on a fresh builder: an element is appended and the
rendered SVG differs from the empty scene's. -/
theorem circle_degenerate_not_noop :
    ((createDrawingContext 512).circle 0 0 0 none).elements ≠ []
    ∧ DrawingContextImpl.toSVG ((createDrawingContext 512).circle 0 0 0 none)
        ≠ DrawingContextImpl.toSVG (createDrawingContext 512) := by
  constructor
  · decide
  · simp only [DrawingContextImpl.toSVG, DrawingContextImpl.circle, createDrawingContext,
      DrawingContextImpl.sortElements, List.nil_append, List.mergeSort_nil,
      List.mergeSort_singleton]
    decide

/-- Claim C1 (amended): for every x, y, radius r ≤ 0 and style, `circle` is not
an error but it is not skipped either: it appends exactly one circle
primitive tagged with the current layer, leaving the counter unchanged (the
degenerate element then appears in the rendered SVG).  The no-op behaviour
the claim describes does hold for `path` on the empty point list. -/
theorem circle_always_appends (d : DrawingContextImpl) (x y r : ℚ)
    (opts : Option ShapeOpts) (_h : r ≤ 0) :
    (d.circle x y r opts).elements
        = d.elements ++ [⟨d.currentLayer, DrawingContextImpl.circleSvg x y r opts⟩]
    ∧ (d.circle x y r opts).currentLayer = d.currentLayer
    ∧ ∀ po : Option PathOpts, d.path [] po = d :=
  ⟨rfl, rfl, fun _ => rfl⟩

/-- Witness for `circle_always_appends` at radius 0 on a fresh builder. -/
theorem circle_always_appends_witness :
    ((createDrawingContext 512).circle 0 0 0 none).elements
        = (createDrawingContext 512).elements
          ++ [⟨(createDrawingContext 512).currentLayer,
               DrawingContextImpl.circleSvg 0 0 0 none⟩]
    ∧ ((createDrawingContext 512).circle 0 0 0 none).currentLayer
        = (createDrawingContext 512).currentLayer
    ∧ ∀ po : Option PathOpts, (createDrawingContext 512).path [] po
        = createDrawingContext 512 :=
  circle_always_appends (createDrawingContext 512) 0 0 0 none (by decide)

/-- Claim C6 (counterexample): the claim "every omitted style field defaults to
fill = transparent, stroke = none, stroke width = 0, … — in particular
`text` with no fill uses transparent fill and `line` follows the same
defaults" is false at the concrete inputs `text` and `line` with omitted
options: `text`'s fill defaults to `#000` (not transparent), `line`'s
stroke defaults to `#000` (not none) and its width to 1 (not 0), and the
font default is the concrete family `Arial`. -/
theorem text_line_defaults_counterexample :
    DrawingContextImpl.textFill none = "#000"
    ∧ DrawingContextImpl.textFill none ≠ "transparent"
    ∧ DrawingContextImpl.lineStroke none = "#000"
    ∧ DrawingContextImpl.lineStroke none ≠ "none"
    ∧ DrawingContextImpl.lineWidth none = 1
    ∧ DrawingContextImpl.lineWidth none ≠ 0
    ∧ DrawingContextImpl.textFont none = "Arial" := by
  refine ⟨rfl, by decide, rfl, by decide, rfl, by decide, rfl⟩

/-- Claim C6 (amended): with the options argument omitted, or with every field
of the options record omitted, the resolved style values are: for the shape
operations (`rect`, `circle`/`triangle`/`arc`, `path`) fill = transparent,
stroke = none, stroke width = 0, opacity = 1 (border radius 0 for `rect`,
closed = false for `path`); for `line` stroke = `#000`, width = 1,
opacity = 1; for `text` fill = `#000`, font = `Arial`, size = 16,
weight = 400, opacity = 1. -/
theorem style_defaults :
    DrawingContextImpl.rectFill none = "transparent"
    ∧ DrawingContextImpl.rectStroke none = "none"
    ∧ DrawingContextImpl.rectStrokeWidth none = 0
    ∧ DrawingContextImpl.rectOpacity none = 1
    ∧ DrawingContextImpl.rectBorderRadius none = 0
    ∧ DrawingContextImpl.rectFill (some ⟨none, none, none, none, none⟩) = "transparent"
    ∧ DrawingContextImpl.rectStroke (some ⟨none, none, none, none, none⟩) = "none"
    ∧ DrawingContextImpl.rectStrokeWidth (some ⟨none, none, none, none, none⟩) = 0
    ∧ DrawingContextImpl.rectOpacity (some ⟨none, none, none, none, none⟩) = 1
    ∧ DrawingContextImpl.rectBorderRadius (some ⟨none, none, none, none, none⟩) = 0
    ∧ DrawingContextImpl.shapeFill none = "transparent"
    ∧ DrawingContextImpl.shapeStroke none = "none"
    ∧ DrawingContextImpl.shapeStrokeWidth none = 0
    ∧ DrawingContextImpl.shapeOpacity none = 1
    ∧ DrawingContextImpl.shapeFill (some ⟨none, none, none, none⟩) = "transparent"
    ∧ DrawingContextImpl.shapeStroke (some ⟨none, none, none, none⟩) = "none"
    ∧ DrawingContextImpl.shapeStrokeWidth (some ⟨none, none, none, none⟩) = 0
    ∧ DrawingContextImpl.shapeOpacity (some ⟨none, none, none, none⟩) = 1
    ∧ DrawingContextImpl.pathFill none = "transparent"
    ∧ DrawingContextImpl.pathStroke none = "none"
    ∧ DrawingContextImpl.pathStrokeWidth none = 0
    ∧ DrawingContextImpl.pathOpacity none = 1
    ∧ DrawingContextImpl.pathClosed none = false
    ∧ DrawingContextImpl.pathFill (some ⟨none, none, none, none, none⟩) = "transparent"
    ∧ DrawingContextImpl.pathStroke (some ⟨none, none, none, none, none⟩) = "none"
    ∧ DrawingContextImpl.pathStrokeWidth (some ⟨none, none, none, none, none⟩) = 0
    ∧ DrawingContextImpl.pathOpacity (some ⟨none, none, none, none, none⟩) = 1
    ∧ DrawingContextImpl.pathClosed (some ⟨none, none, none, none, none⟩) = false
    ∧ DrawingContextImpl.lineStroke none = "#000"
    ∧ DrawingContextImpl.lineWidth none = 1
    ∧ DrawingContextImpl.lineOpacity none = 1
    ∧ DrawingContextImpl.textFill none = "#000"
    ∧ DrawingContextImpl.textFont none = "Arial"
    ∧ DrawingContextImpl.textSize none = 16
    ∧ DrawingContextImpl.textWeight none = 400
    ∧ DrawingContextImpl.textOpacity none = 1
    ∧ DrawingContextImpl.textFill (some ⟨none, none, none, none, none⟩) = "#000"
    ∧ DrawingContextImpl.textFont (some ⟨none, none, none, none, none⟩) = "Arial"
    ∧ DrawingContextImpl.textSize (some ⟨none, none, none, none, none⟩) = 16
    ∧ DrawingContextImpl.textWeight (some ⟨none, none, none, none, none⟩) = 400
    ∧ DrawingContextImpl.textOpacity (some ⟨none, none, none, none, none⟩) = 1 := by
  decide

/-- Transitivity of the element comparison used by the render sort. -/
theorem elementLe_trans (a b c : Element) :
    decide (a.layer ≤ b.layer) = true → decide (b.layer ≤ c.layer) = true →
    decide (a.layer ≤ c.layer) = true := by
  simp only [decide_eq_true_eq]
  omega

/-- Totality of the element comparison used by the render sort. -/
theorem elementLe_total (a b : Element) :
    (decide (a.layer ≤ b.layer) || decide (b.layer ≤ a.layer)) = true := by
  simp only [Bool.or_eq_true, decide_eq_true_eq]
  omega

/-- Claim C3: the renderer emits primitives stably sorted by layer ascending:
the emitted sequence is a permutation of the appended elements, every
element with a lower layer precedes every element with a higher layer, any
two elements in insertion order `a` then `b` with `a.layer ≤ b.layer` (in
particular any two on the same layer) keep their relative order, and
`toSVG` serializes the elements in exactly that sequence. -/
theorem render_order_stable (d : DrawingContextImpl) :
    List.Perm (DrawingContextImpl.sortElements d.elements) d.elements
    ∧ List.Pairwise (fun a b : Element => a.layer ≤ b.layer)
        (DrawingContextImpl.sortElements d.elements)
    ∧ (∀ a b : Element, a.layer ≤ b.layer →
        List.Sublist [a, b] d.elements →
        List.Sublist [a, b] (DrawingContextImpl.sortElements d.elements))
    ∧ DrawingContextImpl.toSVG d
        = "<svg width=\"" ++ num d.canvasSize ++ "\" height=\"" ++ num d.canvasSize
          ++ "\" xmlns=\"http://www.w3.org/2000/svg\">" ++ nl
          ++ String.intercalate nl
              ((DrawingContextImpl.sortElements d.elements).map Element.svg)
          ++ nl ++ "</svg>" := by
  refine ⟨List.mergeSort_perm d.elements _, ?_, ?_, rfl⟩
  · have h := List.sorted_mergeSort elementLe_trans elementLe_total d.elements
    exact h.imp (fun hab => by simpa using hab)
  · intro a b hle hsub
    exact List.pair_sublist_mergeSort elementLe_trans elementLe_total
      (by simpa using hle) hsub

/-- Witness for `render_order_stable`: two same-layer elements inserted in
order keep that order after the render sort. -/
theorem render_order_stable_witness :
    List.Sublist [(⟨0, "a"⟩ : Element), ⟨0, "b"⟩]
      (DrawingContextImpl.sortElements [⟨0, "a"⟩, ⟨0, "b"⟩]) :=
  (render_order_stable ⟨[⟨0, "a"⟩, ⟨0, "b"⟩], 0, 512⟩).2.2.1 ⟨0, "a"⟩ ⟨0, "b"⟩
    (by decide) (List.Sublist.refl _)

/-- Claim C8: the builder's chainable operations (modelled as state-passing on
one builder value) keep the layer invariants: the counter starts at 0 on a
fresh builder, only the advance-layer operation changes it and only by
incrementing by one, every other operation leaves it unchanged, already
appended elements are untouched (so a primitive's layer is never mutated
after creation), and every newly appended element is tagged with the
counter's value at the moment of the call. -/
theorem builder_invariants (cosd sind : ℚ → ℚ) (d : DrawingContextImpl)
    (op : Op) (size : ℚ) :
    (createDrawingContext size).currentLayer = 0
    ∧ (runOp cosd sind d Op.layer).currentLayer = d.currentLayer + 1
    ∧ (runOp cosd sind d Op.layer).elements = d.elements
    ∧ d.currentLayer ≤ (runOp cosd sind d op).currentLayer
    ∧ (op ≠ Op.layer → (runOp cosd sind d op).currentLayer = d.currentLayer)
    ∧ List.take d.elements.length (runOp cosd sind d op).elements = d.elements
    ∧ ∀ e ∈ List.drop d.elements.length (runOp cosd sind d op).elements,
        e.layer = d.currentLayer := by
  refine ⟨rfl, rfl, rfl, ?_, ?_, ?_, ?_⟩ <;>
    cases op <;>
      try simp [runOp, DrawingContextImpl.rect, DrawingContextImpl.circle,
        DrawingContextImpl.triangle, DrawingContextImpl.line,
        DrawingContextImpl.path, DrawingContextImpl.arc,
        DrawingContextImpl.text, DrawingContextImpl.layer,
        List.take_left, List.drop_left]
  all_goals
    rename_i points opts
  all_goals
    cases points <;>
      simp [List.take_left, List.drop_left]

/-- Witness for `builder_invariants`: a circle call on a fresh builder keeps
the counter at 0 and tags the appended element with layer 0. -/
theorem builder_invariants_witness :
    (runOp id id (createDrawingContext 512) (Op.circle 1 2 3 none)).currentLayer
      = (createDrawingContext 512).currentLayer
    ∧ (⟨0, DrawingContextImpl.circleSvg 1 2 3 none⟩ : Element).layer
      = (createDrawingContext 512).currentLayer :=
  ⟨(builder_invariants id id (createDrawingContext 512) (Op.circle 1 2 3 none) 512).2.2.2.2.1
      (by decide),
   (builder_invariants id id (createDrawingContext 512) (Op.circle 1 2 3 none) 512).2.2.2.2.2.2
      ⟨0, DrawingContextImpl.circleSvg 1 2 3 none⟩
      (by simp [runOp, DrawingContextImpl.circle, createDrawingContext])⟩

/-- Claim C4: when the submitted code raises an unhandled error, the tool
wrapper returns a typed failure carrying exactly the underlying message and
no image of any kind; on normal completion it returns the rendered image of
the scene the code built. -/
theorem harness_error_result (cosd sind : ℚ → ℚ) (code : Code) (size : ℚ) :
    executeCodeTool cosd sind code size
      = (match code.err with
         | some m => ToolOutput.failure m
         | none => ToolOutput.success
             (DrawingContextImpl.toSVG (runOps cosd sind (createDrawingContext size) code.ops)))
    ∧ (∀ m, code.err = some m →
        executeCodeTool cosd sind code size = ToolOutput.failure m
        ∧ ∀ img, executeCodeTool cosd sind code size ≠ ToolOutput.success img)
    ∧ (code.err = none →
        executeCodeTool cosd sind code size
          = ToolOutput.success
              (DrawingContextImpl.toSVG (runOps cosd sind (createDrawingContext size) code.ops))) := by
  cases h : code.err <;>
    simp [executeCodeTool, executeCode, h]

/-- Witness for `harness_error_result`: a script that raises with message
`boom` yields the typed failure `boom` and no success value. -/
theorem harness_error_result_witness :
    executeCodeTool id id ⟨[], some "boom"⟩ 512 = ToolOutput.failure "boom"
    ∧ ∀ img, executeCodeTool id id ⟨[], some "boom"⟩ 512 ≠ ToolOutput.success img :=
  (harness_error_result id id ⟨[], some "boom"⟩ 512).2.1 "boom" rfl

/-- Claim C5: two sequential `execute` calls are capability-independent — each
constructs its own fresh builder (empty element list, layer counter 0), and
each call's result is exactly the result of running its code alone,
whatever the other code did and whether or not it completed (`codeA.err`
is unconstrained). -/
theorem execute_isolated (cosd sind : ℚ → ℚ) (codeA codeB : Code) (size : ℚ) :
    (executeSequential cosd sind codeA codeB size).2 = executeCode cosd sind codeB size
    ∧ (executeSequential cosd sind codeA codeB size).1 = executeCode cosd sind codeA size
    ∧ (createDrawingContext size).elements = []
    ∧ (createDrawingContext size).currentLayer = 0 :=
  ⟨rfl, rfl, rfl, rfl⟩

/-- Claim C7: the path emitted by `arc(x, y, r, start, end)` is a pie wedge —
it starts at the center, lines to the point at angle `start`, arcs to the
point at angle `end` and closes back to the center; the point at angle θ
degrees is `(x + r·cos θ, y + r·sin θ)` (0° = right, increasing clockwise
since y grows downward), so it lies on the circle of radius r around the
center; the large-arc flag is 1 exactly when |end − start| > 180 and the
sweep flag is 1 exactly when end > start.  Concretely,
`arc(256, 256, 100, 0, 90)`'s wedge boundary passes through (356, 256) and
(256, 356). -/
theorem arc_pie_wedge (x y r s e : ℚ) :
    (arcPath x y r s e).moveTo = ((x : ℝ), (y : ℝ))
    ∧ (arcPath x y r s e).closed = true
    ∧ (arcPath x y r s e).rx = r
    ∧ (arcPath x y r s e).lineTo = pointOnCircle x y r s
    ∧ (arcPath x y r s e).arcEnd = pointOnCircle x y r e
    ∧ ((arcPath x y r s e).largeArc = 1 ↔ |e - s| > 180)
    ∧ ((arcPath x y r s e).largeArc = 0 ↔ ¬(|e - s| > 180))
    ∧ ((arcPath x y r s e).sweep = 1 ↔ e > s)
    ∧ ((arcPath x y r s e).sweep = 0 ↔ ¬(e > s))
    ∧ (((pointOnCircle x y r s).1 - (x : ℝ)) ^ 2
        + ((pointOnCircle x y r s).2 - (y : ℝ)) ^ 2 = (r : ℝ) ^ 2)
    ∧ pointOnCircle 256 256 100 0 = ((356 : ℝ), (256 : ℝ))
    ∧ pointOnCircle 256 256 100 90 = ((256 : ℝ), (356 : ℝ)) := by
  refine ⟨rfl, rfl, rfl, rfl, rfl, ?_, ?_, ?_, ?_, ?_, ?_, ?_⟩
  · simp only [arcPath, DrawingContextImpl.largeArcFlag]
    split <;> simp_all
  · simp only [arcPath, DrawingContextImpl.largeArcFlag]
    split <;> simp_all
  · simp only [arcPath, DrawingContextImpl.sweepFlag]
    split <;> simp_all
  · simp only [arcPath, DrawingContextImpl.sweepFlag]
    split <;> simp_all
  · simp only [pointOnCircle]
    have h := Real.sin_sq_add_cos_sq ((s : ℝ) * Real.pi / 180)
    linear_combination ((r : ℝ) ^ 2) * h
  · simp only [pointOnCircle]
    norm_num
  · simp only [pointOnCircle]
    push_cast
    have h90 : (90 : ℝ) * Real.pi / 180 = Real.pi / 2 := by ring
    rw [h90, Real.cos_pi_div_two, Real.sin_pi_div_two]
    norm_num

/-- Claim C9: after a run of 3 successful harness calls followed by run
completion, the recorded nodes are exactly two `debug` nodes and one
`final` node — the most recently produced one — and each node's parent id
is the previous node's id, except the first node whose parent is the run's
supplied starting parent (or none).  The hypothesis states that the fresh
node ids differ from the supplied parent id, which the source guarantees by
generating nanoid ids. -/
theorem lineage_integrity (tid p : String) (parent : Option Nat) (base : Nat)
    (s1 s2 s3 : StepResult) (h : parent ≠ some (base + 2)) :
    agentRun tid p parent base [s1, s2, s3]
      = [⟨base, tid, parent, GenKind.debug, p, s1.code, s1.imageData⟩,
         ⟨base + 1, tid, some base, GenKind.debug, p, s2.code, s2.imageData⟩,
         ⟨base + 2, tid, some (base + 1), GenKind.final, p, s3.code, s3.imageData⟩]
    ∧ ((agentRun tid p parent base [s1, s2, s3]).map GenNode.kind)
        = [GenKind.debug, GenKind.debug, GenKind.final]
    ∧ ((agentRun tid p parent base [s1, s2, s3]).map GenNode.parentId)
        = [parent, some base, some (base + 1)]
    ∧ ((agentRun tid p parent base [s1, s2, s3]).filter
        (fun n => n.kind = GenKind.debug)).length = 2
    ∧ ((agentRun tid p parent base [s1, s2, s3]).filter
        (fun n => n.kind = GenKind.final)).length = 1 := by
  have hmain : agentRun tid p parent base [s1, s2, s3]
      = [⟨base, tid, parent, GenKind.debug, p, s1.code, s1.imageData⟩,
         ⟨base + 1, tid, some base, GenKind.debug, p, s2.code, s2.imageData⟩,
         ⟨base + 2, tid, some (base + 1), GenKind.final, p, s3.code, s3.imageData⟩] := by
    have hg : ¬(some (base + 2) = parent) := fun hh => h hh.symm
    have g1 : ¬(base = base + 2) := by omega
    have g2 : ¬(base + 1 = base + 2) := by omega
    simp [agentRun, recordSteps, retagFinal, hg, g1, g2]
  refine ⟨hmain, ?_, ?_, ?_, ?_⟩ <;>
    rw [hmain] <;> simp [List.filter]

/-- Witness for `lineage_integrity`: a concrete 3-step run rooted at no
parent. -/
theorem lineage_integrity_witness :
    agentRun "t" "p" none 0 [⟨"c1", "i1"⟩, ⟨"c2", "i2"⟩, ⟨"c3", "i3"⟩]
      = [⟨0, "t", none, GenKind.debug, "p", "c1", "i1"⟩,
         ⟨1, "t", some 0, GenKind.debug, "p", "c2", "i2"⟩,
         ⟨2, "t", some 1, GenKind.final, "p", "c3", "i3"⟩] :=
  (lineage_integrity "t" "p" none 0 ⟨"c1", "i1"⟩ ⟨"c2", "i2"⟩ ⟨"c3", "i3"⟩
    (by decide)).1

/-- The single-character global replace distributes over append. -/
theorem replaceAll_append (c : Char) (r s t : List Char) :
    replaceAll c r (s ++ t) = replaceAll c r s ++ replaceAll c r t := by
  induction s with
  | nil => rfl
  | cons a s ih => simp [replaceAll, ih]

/-- The three sequential replaces of `text`'s escaping equal one single pass
that maps each `&`, `<`, `>` to its entity and keeps every other character:
replacing `&` first means later passes never touch an inserted entity. -/
theorem escape_single_pass (s : List Char) :
    replaceAll '>' ("&gt;".data) (replaceAll '<' ("&lt;".data)
      (replaceAll '&' ("&amp;".data) s)) = escapeList s := by
  induction s with
  | nil => rfl
  | cons a s ih =>
    have h1 : replaceAll '&' ("&amp;".data) (a :: s)
        = (if a = '&' then ("&amp;".data) else [a]) ++ replaceAll '&' ("&amp;".data) s := rfl
    rw [h1, replaceAll_append, replaceAll_append, ih]
    have h2 : escapeList (a :: s) = escapeChar a ++ escapeList s := rfl
    rw [h2]
    congr 1
    rcases eq_or_ne a '&' with ha | ha
    · subst ha
      decide
    · rcases eq_or_ne a '<' with hb | hb
      · subst hb
        decide
      · rcases eq_or_ne a '>' with hc | hc
        · subst hc
          decide
        · simp [escapeChar, replaceAll, ha, hb, hc]

/-- Claim C10: `text` content is escaped before embedding — every `&`, `<`,
`>` in the content is replaced by its entity (the sequential replaces equal
the single-pass entity map) — while the style string fields (fill, stroke,
font family) of every operation — `rect`, `circle`, `triangle`, `line`,
`path`, `arc` and `text` — are spliced verbatim, unescaped, into the
generated SVG markup. -/
theorem content_escaped_styles_verbatim (content : String) (x y w h sw op' br lw : ℚ)
    (t : Option TextOpts) (lop : Option ℚ) (f st fo : String)
    (first : ℚ × ℚ) (rest : List (ℚ × ℚ)) (cl : Bool) (cosd sind : ℚ → ℚ) :
    (escapeContent content).data = escapeList content.data
    ∧ escapeContent "a<b&c>d" = "a&lt;b&amp;c&gt;d"
    ∧ DrawingContextImpl.textSvg content x y t
        = DrawingContextImpl.textSvgOpen x y t ++ escapeContent content ++ "</text>"
    ∧ DrawingContextImpl.rectSvg x y w h (some ⟨some f, some st, some sw, some op', some br⟩)
        = "<rect x=\"" ++ num x ++ "\" y=\"" ++ num y ++ "\" width=\"" ++ num w
          ++ "\" height=\"" ++ num h ++ "\" fill=\"" ++ f ++ "\" stroke=\"" ++ st
          ++ "\" stroke-width=\"" ++ num sw ++ "\" rx=\"" ++ num br
          ++ "\" opacity=\"" ++ num op' ++ "\" />"
    ∧ DrawingContextImpl.circleSvg x y w (some ⟨some f, some st, some sw, some op'⟩)
        = "<circle cx=\"" ++ num x ++ "\" cy=\"" ++ num y ++ "\" r=\"" ++ num w
          ++ "\" fill=\"" ++ f ++ "\" stroke=\"" ++ st ++ "\" stroke-width=\""
          ++ num sw ++ "\" opacity=\"" ++ num op' ++ "\" />"
    ∧ DrawingContextImpl.lineSvg x y w h (some ⟨st, lw, lop⟩)
        = "<line x1=\"" ++ num x ++ "\" y1=\"" ++ num y ++ "\" x2=\"" ++ num w
          ++ "\" y2=\"" ++ num h ++ "\" stroke=\"" ++ st ++ "\" stroke-width=\""
          ++ num lw ++ "\" opacity=\"" ++ num (Option.getD lop 1) ++ "\" />"
    ∧ DrawingContextImpl.textSvgOpen x y (some ⟨some f, some fo, some sw, some op', some lw⟩)
        = "<text x=\"" ++ num x ++ "\" y=\"" ++ num y ++ "\" font-family=\""
          ++ fo ++ "\" font-size=\"" ++ num sw ++ "\" font-weight=\"" ++ num op'
          ++ "\" fill=\"" ++ f ++ "\" opacity=\"" ++ num lw
          ++ "\" text-anchor=\"middle\" dominant-baseline=\"central\">"
    ∧ DrawingContextImpl.triangleSvg x y w h br lw (some ⟨some f, some st, some sw, some op'⟩)
        = "<polygon points=\"" ++ num x ++ "," ++ num y ++ " " ++ num w ++ ","
          ++ num h ++ " " ++ num br ++ "," ++ num lw ++ "\" fill=\"" ++ f
          ++ "\" stroke=\"" ++ st ++ "\" stroke-width=\"" ++ num sw
          ++ "\" opacity=\"" ++ num op' ++ "\" />"
    ∧ DrawingContextImpl.pathSvg first rest (some ⟨some f, some st, some sw, some op', some cl⟩)
        = "<path d=\"" ++ DrawingContextImpl.pathD first rest cl ++ "\" fill=\""
          ++ f ++ "\" stroke=\"" ++ st ++ "\" stroke-width=\"" ++ num sw
          ++ "\" opacity=\"" ++ num op' ++ "\" />"
    ∧ DrawingContextImpl.arcSvg cosd sind x y w h br (some ⟨some f, some st, some sw, some op'⟩)
        = "<path d=\"" ++ DrawingContextImpl.arcD cosd sind x y w h br ++ "\" fill=\""
          ++ f ++ "\" stroke=\"" ++ st ++ "\" stroke-width=\"" ++ num sw
          ++ "\" opacity=\"" ++ num op' ++ "\" />" := by
  refine ⟨escape_single_pass content.data, by decide, rfl, ?_, ?_, ?_, ?_, ?_, ?_, ?_⟩
  · simp [DrawingContextImpl.rectSvg, DrawingContextImpl.rectFill,
      DrawingContextImpl.rectStroke, DrawingContextImpl.rectStrokeWidth,
      DrawingContextImpl.rectOpacity, DrawingContextImpl.rectBorderRadius,
      Option.bind]
  · simp [DrawingContextImpl.circleSvg, DrawingContextImpl.shapeFill,
      DrawingContextImpl.shapeStroke, DrawingContextImpl.shapeStrokeWidth,
      DrawingContextImpl.shapeOpacity, Option.bind]
  · simp [DrawingContextImpl.lineSvg, DrawingContextImpl.lineStroke,
      DrawingContextImpl.lineWidth, DrawingContextImpl.lineOpacity, Option.bind]
  · simp [DrawingContextImpl.textSvgOpen, DrawingContextImpl.textFill,
      DrawingContextImpl.textFont, DrawingContextImpl.textSize,
      DrawingContextImpl.textWeight, DrawingContextImpl.textOpacity, Option.bind]
  · simp [DrawingContextImpl.triangleSvg, DrawingContextImpl.shapeFill,
      DrawingContextImpl.shapeStroke, DrawingContextImpl.shapeStrokeWidth,
      DrawingContextImpl.shapeOpacity, Option.bind]
  · simp [DrawingContextImpl.pathSvg, DrawingContextImpl.pathFill,
      DrawingContextImpl.pathStroke, DrawingContextImpl.pathStrokeWidth,
      DrawingContextImpl.pathOpacity, DrawingContextImpl.pathClosed, Option.bind]
  · simp [DrawingContextImpl.arcSvg, DrawingContextImpl.shapeFill,
      DrawingContextImpl.shapeStroke, DrawingContextImpl.shapeStrokeWidth,
      DrawingContextImpl.shapeOpacity, Option.bind]

end ImageEditor
